import Mathlib

/-!
Verification of the ending-credit generator pipeline (app.py).

The development shallowly embeds the pure parts of the program (the Korean
grammar engine, the argument record of the TTS synthesis call, the audio
assembly pipeline) as Lean functions, and the effectful orchestration in
main as an explicit effect-trace function over the outcomes of the external
calls (HTTP status of the outro download, success of the TTS conversion,
success of decode and export in the assembler).
-/

namespace EndingGenerator

/-! ## Grammar engine (app.py lines 49-75) -/

/-- has_jongsung (app.py lines 49-57): the empty string yields False
(guard `if not text`); otherwise the last character is inspected, and for a
character of the precomposed Hangul block the remainder of its offset
from U+AC00 modulo 28 decides the answer; any other character yields False. -/
def has_jongsung (text : String) : Bool :=
  match text.data.getLast? with
  | none => false
  | some last_char =>
    if '가' ≤ last_char ∧ last_char ≤ '힣' then
      ((last_char.toNat - 0xAC00) % 28 != 0)
    else false

/-- get_josa (app.py lines 59-63). In the Python source josa_type defaults
to the string "이/가"; here every call site passes it explicitly. -/
def get_josa (text : String) (josa_type : String) : String :=
  if has_jongsung text then
    (if josa_type = "이/가" then "이" else "을")
  else
    (if josa_type = "이/가" then "가" else "를")

/-- is_korean (app.py lines 65-67): true iff some character of the text lies
between the characters U+AC00 and U+D7A3 inclusive. -/
def is_korean (text : String) : Bool :=
  text.data.any (fun char => decide ('가' ≤ char ∧ char ≤ '힣'))

/-- generate_ending_credit (app.py lines 69-75). The Python f-string is
rendered as explicit concatenation; get_josa is called with its Python
default argument written out. -/
def generate_ending_credit (title author narrator : String) : String :=
  if is_korean title || is_korean author || is_korean narrator then
    "지금까지 " ++ title ++ " 이었습니다. " ++ author ++ get_josa author "이/가" ++
      " 쓰고, " ++ narrator ++ get_josa narrator "이/가" ++
      " 읽었으며, 이어가다에서 출판했습니다."
  else
    "You\x27ve been listening to " ++ title ++ ". Written by " ++ author ++
      ", read by " ++ narrator ++ ", and published by Ieogada."

/-! ## Specification-side formulations (from the claims, for comparison) -/

/-- Written from the claims: a character of the precomposed Hangul syllable
block U+AC00..U+D7A3, stated on codepoints. -/
def spec_hangul_syllable (c : Char) : Bool :=
  decide (0xAC00 ≤ c.toNat ∧ c.toNat ≤ 0xD7A3)

/-- Written from the claims: some character lies in U+AC00..U+D7A3. -/
def spec_contains_hangul (text : String) : Bool :=
  text.data.any spec_hangul_syllable

/-- Written from the claims: the last character is a Hangul syllable whose
offset from U+AC00 has nonzero remainder modulo 28. -/
def spec_has_batchim (w : String) : Bool :=
  match w.data.getLast? with
  | none => false
  | some c =>
    decide (0xAC00 ≤ c.toNat ∧ c.toNat ≤ 0xD7A3 ∧ (c.toNat - 0xAC00) % 28 ≠ 0)

/-- Written from the claims: the subject particle chosen by the jongsung
rule, stated on codepoints. -/
def spec_subject_particle (w : String) : String :=
  if spec_has_batchim w then "이" else "가"

/-! ## Bridging lemmas -/

theorem char_range_iff (c : Char) :
    ('가' ≤ c ∧ c ≤ '힣') ↔ (0xAC00 ≤ c.toNat ∧ c.toNat ≤ 0xD7A3) := by
  constructor
  · rintro ⟨h1, h2⟩
    exact ⟨h1, h2⟩
  · rintro ⟨h1, h2⟩
    exact ⟨h1, h2⟩

theorem has_jongsung_eq_spec (w : String) : has_jongsung w = spec_has_batchim w := by
  unfold has_jongsung spec_has_batchim
  cases h : w.data.getLast? with
  | none => rfl
  | some c =>
    by_cases hr : ('가' ≤ c ∧ c ≤ '힣')
    · have hn := (char_range_iff c).mp hr
      by_cases hm : (c.toNat - 0xAC00) % 28 = 0 <;> simp [hr, hn.1, hn.2, hm]
    · have hn : ¬ (0xAC00 ≤ c.toNat ∧ c.toNat ≤ 0xD7A3) :=
        fun hx => hr ((char_range_iff c).mpr hx)
      simp only [if_neg hr]
      rcases Decidable.not_and_iff_or_not.mp hn with h1 | h2
      · simp [h1]
      · simp [h2]

theorem is_korean_eq_spec (w : String) : is_korean w = spec_contains_hangul w := by
  unfold is_korean spec_contains_hangul spec_hangul_syllable
  induction w.data with
  | nil => rfl
  | cons c cs ih =>
    simp only [List.any_cons, ih]
    by_cases hr : ('가' ≤ c ∧ c ≤ '힣')
    · have hn := (char_range_iff c).mp hr
      simp [hr, hn.1, hn.2]
    · have hn : ¬ (0xAC00 ≤ c.toNat ∧ c.toNat ≤ 0xD7A3) :=
        fun hx => hr ((char_range_iff c).mpr hx)
      simp [hr, hn]

theorem get_josa_subject_eq_spec (w : String) :
    get_josa w "이/가" = spec_subject_particle w := by
  unfold get_josa spec_subject_particle
  rw [has_jongsung_eq_spec]
  by_cases h : spec_has_batchim w = true <;> simp [h]

/-! ## Claim theorems for the grammar engine -/

/-- C1: for every string whose last character is a precomposed Hangul
syllable (U+AC00..U+D7A3), get_josa returns the closed-form particle
(subject 이, object 을) iff (codepoint - 0xAC00) mod 28 is nonzero, and
the open-form particle (subject 가, object 를) otherwise. -/
theorem C1_josa_closed_iff (pre : List Char) (c : Char)
    (h1 : 0xAC00 ≤ c.toNat) (h2 : c.toNat ≤ 0xD7A3) :
    get_josa (String.mk (pre ++ [c])) "이/가"
        = (if (c.toNat - 0xAC00) % 28 ≠ 0 then "이" else "가")
  ∧ get_josa (String.mk (pre ++ [c])) "을/를"
        = (if (c.toNat - 0xAC00) % 28 ≠ 0 then "을" else "를") := by
  have hlast : (String.mk (pre ++ [c])).data.getLast? = some c := by
    simp [String.mk]
  have hr : ('가' ≤ c ∧ c ≤ '힣') := (char_range_iff c).mpr ⟨h1, h2⟩
  have hjs : has_jongsung (String.mk (pre ++ [c]))
      = ((c.toNat - 0xAC00) % 28 != 0) := by
    unfold has_jongsung
    rw [hlast]
    simp [hr]
  constructor <;>
  · unfold get_josa
    rw [hjs]
    by_cases hm : (c.toNat - 0xAC00) % 28 = 0 <;> simp [hm]

/-- C1 witness: the syllable 책 (U+CC45, offset mod 28 nonzero) yields the
closed-form particles. -/
theorem C1_josa_closed_iff_witness :
    get_josa (String.mk ([] ++ ['책'])) "이/가" = "이"
  ∧ get_josa (String.mk ([] ++ ['책'])) "을/를" = "을" := by
  have h := C1_josa_closed_iff [] '책' (by decide) (by decide)
  simpa using h

/-- C2: generate_ending_credit returns the Korean template sentence, with
subject particles chosen by the jongsung rule, iff one of the three fields
contains a character of U+AC00..U+D7A3, and otherwise the exact English
template with no Korean particles. -/
theorem C2_credit_sentence (title author narrator : String) :
    generate_ending_credit title author narrator
      = if spec_contains_hangul title || spec_contains_hangul author
            || spec_contains_hangul narrator then
          "지금까지 " ++ title ++ " 이었습니다. " ++ author ++
            spec_subject_particle author ++ " 쓰고, " ++ narrator ++
            spec_subject_particle narrator ++
            " 읽었으며, 이어가다에서 출판했습니다."
        else
          "You\x27ve been listening to " ++ title ++ ". Written by " ++ author ++
            ", read by " ++ narrator ++ ", and published by Ieogada." := by
  unfold generate_ending_credit
  rw [is_korean_eq_spec, is_korean_eq_spec, is_korean_eq_spec,
    get_josa_subject_eq_spec, get_josa_subject_eq_spec]

/-- C7: on the empty string get_josa is total (the embedding is a total
function mirroring the `if not text` guard) and returns the open-form
particle: 가 for the subject type, 를 for every other type string. -/
theorem C7_empty_string_open_form :
    get_josa "" "이/가" = "가"
  ∧ ∀ t : String, t ≠ "이/가" → get_josa "" t = "를" := by
  constructor
  · rfl
  · intro t ht
    unfold get_josa has_jongsung
    simp [ht]

/-- C7 witness: instantiating the object-type clause at the string 을/를. -/
theorem C7_empty_string_open_form_witness :
    get_josa "" "이/가" = "가" ∧ get_josa "" "을/를" = "를" :=
  ⟨C7_empty_string_open_form.1,
   C7_empty_string_open_form.2 "을/를" (by decide)⟩

/-- C10: for every word and every josa_type other than the exact string
이/가 (the object kind or any unrecognized string alike), get_josa returns
the object-form particle by the jongsung rule; josa_type is never
validated. -/
theorem C10_object_form_default (word josa_type : String)
    (h : josa_type ≠ "이/가") :
    get_josa word josa_type = (if spec_has_batchim word then "을" else "를") := by
  unfold get_josa
  rw [has_jongsung_eq_spec]
  by_cases hb : spec_has_batchim word = true <;> simp [hb, h]

/-- C10 witness: an arbitrary unrecognized type string on the word 책. -/
theorem C10_object_form_default_witness :
    get_josa "책" "anything" = "을" := by
  have h := C10_object_form_default "책" "anything" (by decide)
  simpa using h

/-! ## Speech synthesizer call (app.py lines 77-107) -/

/-- The argument record of the ElevenLabs convert call. -/
structure ConvertCall where
  voice_id : String
  text : String
  model_id : String
  output_format : String
deriving DecidableEq, Repr

/-- text_to_speech (app.py lines 77-88) builds exactly this convert call.
The Python function takes a speed parameter (default 1.0, forwarded from
the slider in main at line 171), and the convert call at lines 83-88 names
only voice_id, text, model_id and output_format. -/
def text_to_speech_convert (text : String) (speed : ℚ) : ConvertCall :=
  { voice_id := "xtPpJW6BY4c8ATbuVBO1",
    text := text,
    model_id := "eleven_multilingual_v2",
    output_format := "mp3_44100_128" }

/-- C3: the claim says the speed value in [0.5, 2.0] is passed through
verbatim to the TTS synthesis call. In the code the speed parameter of
text_to_speech never occurs in the convert call: any two speeds produce
identical calls, so in particular the boundary values 0.5 and 2.0 are
indistinguishable at the synthesis interface. -/
theorem C3_speed_not_forwarded (text : String) (s t : ℚ) :
    text_to_speech_convert text s = text_to_speech_convert text t := rfl

/-! ## Audio assembler (app.py lines 109-139)

The decoded audio is modelled as a list of PCM frames at one model rate;
the pydub decode and encode steps are external library calls, so the
assembler is embedded as the function from the two decoded clips to the
export call it performs, together with the decode formats it uses. -/

structure AudioSegment where
  frames : List Int
deriving DecidableEq, Repr

def model_rate : Nat := 44100

/-- AudioSegment.silent(duration=500) at app.py line 117: a clip of zero
frames covering the given number of milliseconds. -/
def silent (duration : Nat) : AudioSegment :=
  { frames := List.replicate (duration * model_rate / 1000) 0 }

/-- The pydub + operator: plain PCM-domain append. -/
def seg_add (a b : AudioSegment) : AudioSegment :=
  { frames := a.frames ++ b.frames }

def durationMs (a : AudioSegment) : ℚ :=
  (a.frames.length : ℚ) * 1000 / (model_rate : ℚ)

inductive AudioFormat
  | wav
  | mp3
deriving DecidableEq, Repr

/-- AudioSegment.from_mp3(tts_path) at app.py line 113: the speech bytes
are decoded as MP3, the format text_to_speech produced (output_format
mp3_44100_128, temp file suffix .mp3 at line 99). -/
def tts_decode_format : AudioFormat := AudioFormat.mp3

/-- AudioSegment.from_wav(outro_path) at app.py line 114. -/
def outro_decode_format : AudioFormat := AudioFormat.wav

/-- The export call at app.py lines 124-133. -/
structure ExportCall where
  clip : AudioSegment
  format : String
  bitrate : String
  parameters : List String
deriving DecidableEq, Repr

/-- process_audio_files (app.py lines 109-139) on the two decoded clips:
insert 500 ms of silence, append in the fixed order, export as MP3 with
bitrate 192k and ffmpeg parameters -ar 44100 -ac 2 -ab 192k. -/
def process_audio_files (tts_audio outro_audio : AudioSegment) : ExportCall :=
  let silence := silent 500
  let combined := seg_add (seg_add tts_audio silence) outro_audio
  { clip := combined,
    format := "mp3",
    bitrate := "192k",
    parameters := ["-ar", "44100", "-ac", "2", "-ab", "192k"] }

/-- C4: the assembler decodes the speech bytes per their format (MP3) and
the outro as WAV, inserts exactly 500 ms of silence, concatenates in the
fixed order speech-silence-outro by plain append (no crossfade and no gain
change: the frames of the inputs appear unmodified in order), and encodes
to MP3 at 192 kbps, 44100 Hz, 2 channels. -/
theorem C4_assembly (tts_audio outro_audio : AudioSegment) :
    (process_audio_files tts_audio outro_audio).clip.frames
        = tts_audio.frames ++ (silent 500).frames ++ outro_audio.frames
  ∧ durationMs (silent 500) = 500
  ∧ tts_decode_format = AudioFormat.mp3
  ∧ outro_decode_format = AudioFormat.wav
  ∧ (text_to_speech_convert "" 1).output_format = "mp3_44100_128"
  ∧ (process_audio_files tts_audio outro_audio).format = "mp3"
  ∧ (process_audio_files tts_audio outro_audio).bitrate = "192k"
  ∧ (process_audio_files tts_audio outro_audio).parameters
        = ["-ar", "44100", "-ac", "2", "-ab", "192k"] := by
  refine ⟨?_, ?_, rfl, rfl, rfl, rfl, rfl, rfl⟩
  · simp [process_audio_files, seg_add, List.append_assoc]
  · norm_num [durationMs, silent, model_rate]

/-- C8: the duration of the assembled clip is the speech duration plus
500 ms plus the outro duration, within the 50 ms tolerance the claim
grants (in the PCM model the equality is exact). -/
theorem C8_duration_additive (tts_audio outro_audio : AudioSegment) :
    |durationMs (process_audio_files tts_audio outro_audio).clip
      - (durationMs tts_audio + 500 + durationMs outro_audio)| ≤ 50 := by
  have h : durationMs (process_audio_files tts_audio outro_audio).clip
      = durationMs tts_audio + 500 + durationMs outro_audio := by
    simp only [durationMs, process_audio_files, seg_add, silent, model_rate,
      List.length_append, List.length_replicate]
    push_cast
    ring_nf
  rw [h]
  simp

/-! ## Orchestrator effect model (main, app.py lines 141-204)

main is embedded as a function from the outcomes of the external calls to
the effect trace of one run: which temporary files were created and
deleted, which error messages were shown, and which stages ran. -/

/-- The temporary files a run can create: the outro download (line 38), the
synthesized speech (line 99), and the assembled output (line 123). -/
inductive FileTag
  | outroFile
  | ttsFile
  | finalFile
deriving DecidableEq, Repr

/-- download_outro (app.py lines 33-47) as a function of the HTTP status of
the GET: on 200 a temp file is written and returned, otherwise an error is
shown and None returned. -/
def download_outro (status : Nat) : Option FileTag × List String :=
  if status = 200 then (some FileTag.outroFile, [])
  else (none, ["엔딩 음악 다운로드 실패"])

/-- The effect of text_to_speech (app.py lines 77-107) as a function of
whether the ElevenLabs convert call succeeds: on success a temp .mp3 file
is written and its path returned; on any exception an error is shown and
None returned with no file created. -/
def text_to_speech_result (convert_ok : Bool) : Option FileTag × List String :=
  if convert_ok then (some FileTag.ttsFile, [])
  else (none, ["TTS 변환 중 오류가 발생했습니다"])

/-- The effect of process_audio_files (app.py lines 109-139) as a function
of whether the pydub decode (lines 113-114) and the export (lines 124-133)
succeed: the output temp file is created at line 123 before the export, so
a failing export still leaves it behind; a failing decode creates nothing;
failure returns None after showing an error. -/
def process_audio_files_result (decode_ok export_ok : Bool) :
    Option FileTag × List FileTag × List String :=
  if decode_ok then
    if export_ok then (some FileTag.finalFile, [FileTag.finalFile], [])
    else (none, [FileTag.finalFile], ["오디오 처리 중 오류가 발생했습니다"])
  else (none, [], ["오디오 처리 중 오류가 발생했습니다"])

/-- The outcomes of the external calls made by one run of main, together
with the form contents. -/
structure Env where
  outro_status : Nat
  submitted : Bool
  title : String
  author : String
  narrator : String
  speed : ℚ
  tts_ok : Bool
  decode_ok : Bool
  export_ok : Bool

/-- The observable effect trace of one run of main. -/
structure RunState where
  created : List FileTag
  deleted : List FileTag
  errors : List String
  credit_generated : Bool
  tts_called : Bool
  assembler_called : Bool
  final_audio : Bool
deriving DecidableEq, Repr

/-- main (app.py lines 141-204). The outro is downloaded first; a failed
download stops the script (st.stop at line 150), so the deletion code at
lines 203-204 is not reached, but no file exists then. The pipeline body
runs only under `if submitted and title and author and narrator` (line
164). On TTS failure the assembler is not called. On assembler failure
nothing is unlinked except the outro at the end; on full success tts_path
and final_path are unlinked (lines 196-197) and then the outro (line 204). -/
def mainRun (env : Env) : RunState :=
  match download_outro env.outro_status with
  | (none, errs) =>
    { created := [], deleted := [],
      errors := errs ++ ["엔딩 음악을 불러올 수 없습니다."],
      credit_generated := false, tts_called := false,
      assembler_called := false, final_audio := false }
  | (some outro, _) =>
    if env.submitted && !env.title.isEmpty && !env.author.isEmpty
        && !env.narrator.isEmpty then
      match text_to_speech_result env.tts_ok with
      | (none, terrs) =>
        { created := [outro], deleted := [outro], errors := terrs,
          credit_generated := true, tts_called := true,
          assembler_called := false, final_audio := false }
      | (some tts, _) =>
        match process_audio_files_result env.decode_ok env.export_ok with
        | (some fin, proc_created, _) =>
          { created := [outro, tts] ++ proc_created,
            deleted := [tts, fin, outro], errors := [],
            credit_generated := true, tts_called := true,
            assembler_called := true, final_audio := true }
        | (none, proc_created, perrs) =>
          { created := [outro, tts] ++ proc_created,
            deleted := [outro], errors := perrs,
            credit_generated := true, tts_called := true,
            assembler_called := true, final_audio := false }
    else
      { created := [outro], deleted := [outro], errors := [],
        credit_generated := false, tts_called := false,
        assembler_called := false, final_audio := false }

/-- C5: when the form was submitted with nonempty fields, the outro is
available, and the TTS conversion fails, the run reports the TTS failure
message, never calls the assembler, and produces no final audio. -/
theorem C5_tts_failure_short_circuits (env : Env)
    (houtro : env.outro_status = 200)
    (hform : (env.submitted && !env.title.isEmpty && !env.author.isEmpty
        && !env.narrator.isEmpty) = true)
    (htts : env.tts_ok = false) :
    "TTS 변환 중 오류가 발생했습니다" ∈ (mainRun env).errors
  ∧ (mainRun env).assembler_called = false
  ∧ (mainRun env).final_audio = false := by
  unfold mainRun download_outro text_to_speech_result
  simp [houtro, hform, htts]

/-- A concrete environment in which the ElevenLabs call fails. -/
def env_tts_fail : Env :=
  { outro_status := 200, submitted := true, title := "달빛", author := "김작가",
    narrator := "박낭독", speed := 1, tts_ok := false, decode_ok := true,
    export_ok := true }

/-- C5 witness. -/
theorem C5_tts_failure_short_circuits_witness :
    env_tts_fail.outro_status = 200
  ∧ (env_tts_fail.submitted && !env_tts_fail.title.isEmpty
      && !env_tts_fail.author.isEmpty && !env_tts_fail.narrator.isEmpty) = true
  ∧ env_tts_fail.tts_ok = false
  ∧ ("TTS 변환 중 오류가 발생했습니다" ∈ (mainRun env_tts_fail).errors
      ∧ (mainRun env_tts_fail).assembler_called = false
      ∧ (mainRun env_tts_fail).final_audio = false) :=
  ⟨rfl, rfl, rfl, C5_tts_failure_short_circuits env_tts_fail rfl rfl rfl⟩

/-- A concrete environment in which the pydub decode fails. -/
def env_decode_fail : Env :=
  { outro_status := 200, submitted := true, title := "달빛", author := "김작가",
    narrator := "박낭독", speed := 1, tts_ok := true, decode_ok := false,
    export_ok := true }

/-- C6 counterexample: in a run where audio decoding fails, the synthesized
speech temp file was created but is never deleted, so not every transient
file is released on every exit path. -/
theorem C6_cleanup_counterexample :
    FileTag.ttsFile ∈ (mainRun env_decode_fail).created
  ∧ FileTag.ttsFile ∉ (mainRun env_decode_fail).deleted := by
  constructor <;> decide

/-- C6 amended: the outro temp file is deleted whenever it was created, and
on the fully successful path every temp file created during the run is
deleted; but on runs where decode or export fails, the speech temp file
(and the pre-created output temp file, if reached) are leaked. -/
theorem C6_cleanup_amended (env : Env) :
    (FileTag.outroFile ∈ (mainRun env).deleted
        ↔ FileTag.outroFile ∈ (mainRun env).created)
  ∧ ((mainRun env).final_audio = true →
      ∀ f, f ∈ (mainRun env).created → f ∈ (mainRun env).deleted) := by
  rcases env with ⟨st, sub, ti, au, na, sp, tts, dec, exp⟩
  by_cases h1 : st = 200 <;>
    by_cases h2 : (sub && !ti.isEmpty && !au.isEmpty && !na.isEmpty) = true <;>
    cases tts <;> cases dec <;> cases exp <;>
    simp only [mainRun, download_outro, text_to_speech_result,
      process_audio_files_result, h1, h2, if_true, if_false, ite_true,
      ite_false, reduceIte] <;>
    simp

/-- A concrete fully successful environment. -/
def env_success : Env :=
  { outro_status := 200, submitted := true, title := "달빛", author := "김작가",
    narrator := "박낭독", speed := 1, tts_ok := true, decode_ok := true,
    export_ok := true }

/-- C6 amended witness: on the successful run every created file is
deleted, instantiated at the speech temp file. -/
theorem C6_cleanup_amended_witness :
    (FileTag.outroFile ∈ (mainRun env_success).deleted
        ↔ FileTag.outroFile ∈ (mainRun env_success).created)
  ∧ ((mainRun env_success).final_audio = true
      ∧ FileTag.ttsFile ∈ (mainRun env_success).created
      ∧ FileTag.ttsFile ∈ (mainRun env_success).deleted) :=
  ⟨(C6_cleanup_amended env_success).1,
   by decide,
   by decide,
   (C6_cleanup_amended env_success).2 (by decide) FileTag.ttsFile (by decide)⟩

/-- C9: when any of title, author or narrator is empty, the pipeline body
does not run: no credit sentence is generated and the synthesizer is not
called (and hence no assembler call and no final audio either). -/
theorem C9_empty_fields_rejected (env : Env)
    (h : env.title.isEmpty = true ∨ env.author.isEmpty = true
        ∨ env.narrator.isEmpty = true) :
    (mainRun env).credit_generated = false
  ∧ (mainRun env).tts_called = false
  ∧ (mainRun env).assembler_called = false
  ∧ (mainRun env).final_audio = false := by
  have hform : (env.submitted && !env.title.isEmpty && !env.author.isEmpty
      && !env.narrator.isEmpty) = false := by
    rcases h with h | h | h <;> simp [h]
  unfold mainRun download_outro
  by_cases h1 : env.outro_status = 200 <;> simp [h1, hform]

/-- A concrete environment with an empty author field. -/
def env_empty_author : Env :=
  { outro_status := 200, submitted := true, title := "달빛", author := "",
    narrator := "박낭독", speed := 1, tts_ok := true, decode_ok := true,
    export_ok := true }

/-- C9 witness. -/
theorem C9_empty_fields_rejected_witness :
    env_empty_author.author.isEmpty = true
  ∧ ((mainRun env_empty_author).credit_generated = false
      ∧ (mainRun env_empty_author).tts_called = false
      ∧ (mainRun env_empty_author).assembler_called = false
      ∧ (mainRun env_empty_author).final_audio = false) :=
  ⟨rfl, C9_empty_fields_rejected env_empty_author (Or.inr (Or.inl rfl))⟩

end EndingGenerator
